import Mathlib

/-!
Verification of the port-inspector core (src/main.py): snapshot building and
sorting (`refresh`), filtering (`apply_filter`), and process termination
(`on_kill_clicked` / `try_kill_pid`), shallowly embedded in Lean.

Rows are the 6-tuples `(proto, laddr, raddr, status, pid, pname)` built by
`refresh`. OS interactions (psutil calls, signals, the taskkill subprocess)
are inputs to the embedded functions: a value describing what the OS did,
so that the Python control flow around them is modelled exactly.

Python string primitives (`strip`, `lower`, `in`, `isdigit`, `int()`,
comparison) are modelled by structurally recursive functions on the
character lists of the strings; Python compares strings lexicographically
by code point, which is `charListLt` below.
-/

namespace PortInspector

/-! ## Python string primitives -/

/-- Python string comparison `a < b`: lexicographic by code point. -/
def charListLt : List Char → List Char → Bool
  | [], [] => false
  | [], _ :: _ => true
  | _ :: _, [] => false
  | a :: as, b :: bs =>
    if a < b then true
    else if b < a then false
    else charListLt as bs

/-- Python `a < b` on strings. -/
def strLt (a b : String) : Bool := charListLt a.data b.data

/-- Python `a <= b` on strings: the comparison is total, so `¬ (b < a)`. -/
def strLe (a b : String) : Bool := !(charListLt b.data a.data)

/-- Whitespace stripping from both ends, as Python `str.strip()`. -/
def stripList (cs : List Char) : List Char :=
  ((cs.dropWhile Char.isWhitespace).reverse.dropWhile Char.isWhitespace).reverse

/-- Python `s.strip()`. -/
def pyStrip (s : String) : String := ⟨stripList s.data⟩

/-- Python `s.lower()` (ASCII range, which is all the code produces). -/
def pyLower (s : String) : String := ⟨s.data.map Char.toLower⟩

/-- Python `s.isdigit()` (for the ASCII strings at hand): non-empty and all
characters decimal digits. -/
def pyIsDigit (s : String) : Bool :=
  !s.data.isEmpty && s.data.all Char.isDigit

/-- Substring occurrence on char lists, for Python's `needle in hay`. -/
def listContains (needle : List Char) : List Char → Bool
  | [] => needle.isEmpty
  | c :: rest => needle.isPrefixOf (c :: rest) || listContains needle rest

/-- Python `needle in hay` on strings: substring occurrence. -/
def pyIn (needle hay : String) : Bool :=
  listContains needle.data hay.data

/-- Decimal value of a digit list (most significant first). -/
def digitsToNat (acc : Nat) : List Char → Nat
  | [] => acc
  | c :: cs => digitsToNat (acc * 10 + (c.toNat - '0'.toNat)) cs

/-- Parse a non-empty all-digit char list; `none` otherwise. -/
def parseDigits (cs : List Char) : Option Nat :=
  if cs.isEmpty then none
  else if cs.all Char.isDigit then some (digitsToNat 0 cs) else none

/-- Python `int(s)` on a string: surrounding whitespace allowed, an optional
sign, then decimal digits; `none` models the `ValueError` raised otherwise. -/
def pyInt (s : String) : Option Int :=
  match stripList s.data with
  | '-' :: rest => (parseDigits rest).map (fun n => -(n : Int))
  | '+' :: rest => (parseDigits rest).map (fun n => (n : Int))
  | cs => (parseDigits cs).map (fun n => (n : Int))

/-! ## Data model -/

/-- One row of the snapshot: the tuple `(proto, laddr, raddr, status, pid, pname)`
appended by `refresh` for each connection. -/
structure Row where
  proto : String
  laddr : String
  raddr : String
  status : String
  pid : Int
  pname : String
deriving DecidableEq, Repr

/-- Outcome of `psutil.Process(pid).name()`: either the name, or the exception
it raised (any exception is caught by `safe_proc_name`). -/
inductive NameLookup where
  | ok (name : String)
  | err (msg : String)
deriving DecidableEq, Repr

/-- Returns `true` when the lookup raised. -/
def NameLookup.failed : NameLookup → Bool
  | .ok _ => false
  | .err _ => true

/-- Function `safe_proc_name(pid)`: `psutil.Process(pid).name()`, with any exception
mapped to the sentinel `"<unknown>"`. The behaviour of the OS lookup is the
argument `lookup`. -/
def safe_proc_name (lookup : Int → NameLookup) (pid : Int) : String :=
  match lookup pid with
  | .ok n => n
  | .err _ => "<unknown>"

/-- A raw psutil connection entry (`sconn`): socket type code, optional local
and remote endpoints, optional status attribute, optional owning pid. -/
structure Conn where
  type : Int
  laddr : Option (String × Int)
  raddr : Option (String × Int)
  status : Option String
  pid : Option Int

/-- Constant `socket.SOCK_STREAM`. -/
def SOCK_STREAM : Int := 1

/-- Constant `socket.SOCK_DGRAM`. -/
def SOCK_DGRAM : Int := 2

/-- Function `format_local_addr(addr)`: `""` for a missing endpoint, else `"ip:port"`. -/
def format_local_addr : Option (String × Int) → String
  | none => ""
  | some a => a.1 ++ ":" ++ toString a.2

/-- The row-building loop body of `refresh` for one connection `c`:
`pid = c.pid if c.pid is not None else -1`, protocol normalised to a label,
addresses formatted, and `pname = safe_proc_name(pid) if pid > 0 else ""`. -/
def buildRow (lookup : Int → NameLookup) (c : Conn) : Row :=
  let pid := c.pid.getD (-1)
  { proto := if c.type = SOCK_STREAM then "TCP"
             else if c.type = SOCK_DGRAM then "UDP"
             else toString c.type
    laddr := format_local_addr c.laddr
    raddr := format_local_addr c.raddr
    status := c.status.getD ""
    pid := pid
    pname := if pid > 0 then safe_proc_name lookup pid else "" }

/-- Python `s.rsplit(":", 1)[1]`: the part of `s` after its last colon
(all of `s` when there is no colon; `refresh.sort_key` only uses it
after checking `":" in s`). -/
def afterLastColon (s : String) : String :=
  ⟨(s.data.reverse.takeWhile (fun c => c ≠ ':')).reverse⟩

/-- Function `refresh.sort_key(r)`: `(port, r[0], r[5] or "")` where `port` is
`int(r[1].rsplit(":", 1)[1])` if `":" in r[1]`, and `0` both when there is
no colon and when `int` raises. -/
def sort_key (r : Row) : Int × String × String :=
  let port : Int :=
    if r.laddr.data.contains ':' then (pyInt (afterLastColon r.laddr)).getD 0 else 0
  (port, r.proto, if r.pname = "" then "" else r.pname)

/-- Lexicographic `≤` on composite keys, as Python orders the tuples
`(port, proto, pname)`. -/
def keyLe (a b : Int × String × String) : Bool :=
  if a.1 < b.1 then true
  else if b.1 < a.1 then false
  else if strLt a.2.1 b.2.1 then true
  else if strLt b.2.1 a.2.1 then false
  else strLe a.2.2 b.2.2

/-- The comparison `rows.sort(key=sort_key)` sorts by. -/
def rowLe (a b : Row) : Bool :=
  keyLe (sort_key a) (sort_key b)

/-- Relation form of `rowLe`, for the sort. -/
def RowLe (a b : Row) : Prop := rowLe a b = true

instance : DecidableRel RowLe := fun a b => instDecidableEqBool (rowLe a b) true

/-- Python `rows.sort(key=sort_key)`: Python's sort is a stable sort by the key;
a stable sort by a total preorder is unique, so it is modelled by stable
insertion sort. -/
def sortRows (rows : List Row) : List Row :=
  List.insertionSort RowLe rows

/-- The row list built by `refresh`'s loop over the enumerated connections. -/
def buildRows (lookup : Int → NameLookup) (conns : List Conn) : List Row :=
  conns.map (buildRow lookup)

/-- The snapshot `refresh` stores in `self._all_rows`: built rows, sorted. -/
def refreshRows (lookup : Int → NameLookup) (conns : List Conn) : List Row :=
  sortRows (buildRows lookup conns)

/-- The snapshot state across a `refresh` call: `none` models a `PortInspector`
that has no `_all_rows` attribute yet (no successful refresh so far). On an
enumeration exception `refresh` shows an error box and returns, leaving the
stored snapshot untouched; on success it replaces it wholesale. -/
def refreshState (enum : Except String (List Conn)) (lookup : Int → NameLookup)
    (st : Option (List Row)) : Option (List Row) :=
  match enum with
  | .error _ => st
  | .ok conns => some (refreshRows lookup conns)

/-! ## Filtering -/

/-- The numeric branch of `apply_filter`: `q in laddr or q in raddr or
q == str(pid)` (taken only when `q.isdigit()`). -/
def digitMatch (q : String) (r : Row) : Bool :=
  pyIn q r.laddr || pyIn q r.raddr || (q == toString r.pid)

/-- The general branch of `apply_filter`: case-insensitive substring match
over process name, protocol, local address, remote address and status.
(Python guards each field with `or ""`, the identity on these strings.) -/
def generalMatch (q : String) (r : Row) : Bool :=
  pyIn q (pyLower r.pname) || pyIn q (pyLower r.proto) || pyIn q (pyLower r.laddr) ||
    pyIn q (pyLower r.raddr) || pyIn q (pyLower r.status)

/-- The `for r in self._all_rows` loop of `apply_filter`: append `r` when the
numeric branch matches (`continue`), else when the general branch matches. -/
def filterLoop (q : String) : List Row → List Row
  | [] => []
  | r :: rest =>
    if pyIsDigit q && digitMatch q r then r :: filterLoop q rest
    else if generalMatch q r then r :: filterLoop q rest
    else filterLoop q rest

/-- Query normalisation `q = self.search_input.text().strip().lower()`. -/
def queryOf (text : String) : String := pyLower (pyStrip text)

/-- Method `apply_filter` restricted to its pure row computation: the query is the
trimmed, lower-cased search text; an empty query yields the full snapshot. -/
def applyFilterRows (text : String) (rows : List Row) : List Row :=
  let q := queryOf text
  if q = "" then rows else filterLoop q rows

/-- The state `apply_filter` reads and writes: the stored snapshot
(`none` when `self._all_rows` does not exist yet) and the visible rows
currently populated into the table. -/
structure UIState where
  all_rows : Option (List Row)
  visible : List Row
deriving DecidableEq, Repr

/-- Method `apply_filter`: returns immediately (changing nothing) when `_all_rows`
does not exist; otherwise repopulates the table from the filtered rows. -/
def apply_filter (text : String) (st : UIState) : UIState :=
  match st.all_rows with
  | none => st
  | some rows => { st with visible := applyFilterRows text rows }

/-! ## Termination -/

/-- The value of `sys.platform.startswith("win")`. -/
inductive Platform where
  | windows
  | posix
deriving DecidableEq, Repr

/-- Ghost classification of a Python exception, carried alongside its
message; `try_kill_pid`'s generic handler treats all of these alike. -/
inductive ExcKind where
  | accessDenied
  | timeoutExpired
  | otherExc
deriving DecidableEq, Repr

/-- An exception value: its kind (for stating claims about permission
failures) and its `str()` text (what the code interpolates into messages). -/
structure Exc where
  kind : ExcKind
  msg : String
deriving DecidableEq, Repr

/-- What the psutil part of `try_kill_pid` did, i.e. how the block
`Process(pid); terminate(); wait(3) / kill(); wait(3)` played out:
* `noSuchProcess` — a step raised `psutil.NoSuchProcess`/`ProcessLookupError`;
* `gracefulExit` — the first `wait(3)` returned: the process exited in time;
* `forcefulExit` — the first wait timed out, `kill()` was sent and the second
  `wait(3)` returned;
* `stuckAfterKill` — the first wait timed out, `kill()` was sent and the
  second `wait(3)` raised `psutil.TimeoutExpired` (msg), which is not
  `NoSuchProcess`, so it reaches the generic `except Exception` handler;
* `raisedExc` — some step raised any other exception (e.g.
  `psutil.AccessDenied`), reaching the generic handler. -/
inductive KillPhase where
  | noSuchProcess
  | gracefulExit
  | forcefulExit
  | stuckAfterKill (msg : String)
  | raisedExc (e : Exc)
deriving DecidableEq, Repr

/-- Outcome of `subprocess.check_call(["taskkill", "/PID", str(pid), "/F"])`. -/
inductive TaskkillResult where
  | ok
  | fail (e2 : String)
deriving DecidableEq, Repr

/-- Outcome of `os.kill(pid, signal.SIGTERM)`: returned, raised
`PermissionError`, or raised another exception. -/
inductive SigtermResult where
  | ok
  | permErr (pe : String)
  | err (e3 : String)
deriving DecidableEq, Repr

/-- The generic `except Exception as e` handler of `try_kill_pid`: on Windows
try `taskkill /F`; elsewhere try a raw `os.kill(pid, SIGTERM)`. -/
def handleKillExc (platform : Platform) (e : String)
    (tk : TaskkillResult) (sg : SigtermResult) : Bool × String :=
  match platform with
  | .windows =>
    match tk with
    | .ok => (true, "taskkill")
    | .fail e2 => (false, e ++ "; taskkill failed: " ++ e2)
  | .posix =>
    match sg with
    | .permErr pe => (false, "permission denied: " ++ pe)
    | .err e3 => (false, e3)
    | .ok => (true, "SIGTERM sent")

/-- Method `try_kill_pid(pid)`: graceful `terminate()` with a 3-second wait, then
`kill()` with another 3-second wait, with `NoSuchProcess` mapped to
`(False, "process not found")` and every other exception sent to the
platform fallback handler. -/
def try_kill_pid (platform : Platform) (phase : KillPhase)
    (tk : TaskkillResult) (sg : SigtermResult) : Bool × String :=
  match phase with
  | .noSuchProcess => (false, "process not found")
  | .gracefulExit => (true, "terminated")
  | .forcefulExit => (true, "killed")
  | .stuckAfterKill msg => handleKillExc platform msg tk sg
  | .raisedExc e => handleKillExc platform e.msg tk sg

/-- The termination command as the operator invokes it (`on_kill_clicked`
composed with `try_kill_pid`, the confirmation dialog aside): for
`not pid or pid <= 0` it reports "No PID" and returns without touching the
process; otherwise it runs `try_kill_pid`. -/
def terminate (platform : Platform) (pid : Int) (phase : KillPhase)
    (tk : TaskkillResult) (sg : SigtermResult) : Bool × String :=
  if pid = 0 ∨ pid ≤ 0 then (false, "no PID")
  else try_kill_pid platform phase tk sg

/-! ## Order lemmas for the sort comparison -/

theorem charListLt_irrefl : ∀ l : List Char, charListLt l l = false
  | [] => rfl
  | a :: as => by simp [charListLt, charListLt_irrefl as]

theorem charListLt_trans : ∀ {a b c : List Char},
    charListLt a b = true → charListLt b c = true → charListLt a c = true
  | [], _ :: _, _ :: _, _, _ => rfl
  | [], [], _, h, _ => by simp [charListLt] at h
  | [], _ :: _, [], _, h => by simp [charListLt] at h
  | _ :: _, [], _, h, _ => by simp [charListLt] at h
  | _ :: _, _ :: _, [], _, h => by simp [charListLt] at h
  | a :: as, b :: bs, c :: cs, h1, h2 => by
    simp only [charListLt] at h1 h2 ⊢
    by_cases hab : a < b
    · by_cases hbc : b < c
      · rw [if_pos (lt_trans hab hbc)]
      · by_cases hcb : c < b
        · rw [if_neg hbc, if_pos hcb] at h2
          exact Bool.noConfusion h2
        · have hbceq : b = c := le_antisymm (le_of_not_lt hcb) (le_of_not_lt hbc)
          rw [if_pos (hbceq ▸ hab)]
    · by_cases hba : b < a
      · rw [if_neg hab, if_pos hba] at h1
        exact Bool.noConfusion h1
      · have habeq : a = b := le_antisymm (le_of_not_lt hba) (le_of_not_lt hab)
        subst habeq
        rw [if_neg hab, if_neg hab] at h1
        by_cases hac : a < c
        · rw [if_pos hac]
        · by_cases hca : c < a
          · rw [if_neg hac, if_pos hca] at h2
            exact Bool.noConfusion h2
          · rw [if_neg hac, if_neg hca] at h2 ⊢
            exact charListLt_trans h1 h2

theorem charListLt_connex : ∀ {a b : List Char},
    charListLt a b = false → charListLt b a = false → a = b
  | [], [], _, _ => rfl
  | [], _ :: _, h, _ => by simp [charListLt] at h
  | _ :: _, [], _, h => by simp [charListLt] at h
  | a :: as, b :: bs, h1, h2 => by
    simp only [charListLt] at h1 h2
    by_cases hab : a < b
    · rw [if_pos hab] at h1
      exact Bool.noConfusion h1
    · by_cases hba : b < a
      · rw [if_pos hba] at h2
        exact Bool.noConfusion h2
      · have habeq : a = b := le_antisymm (le_of_not_lt hba) (le_of_not_lt hab)
        rw [if_neg hab, if_neg hba] at h1
        rw [if_neg hba, if_neg hab] at h2
        rw [habeq]
        exact congrArg (b :: ·) (charListLt_connex h1 h2)

theorem charListLt_asymm {a b : List Char}
    (h1 : charListLt a b = true) (h2 : charListLt b a = true) : False := by
  have := charListLt_trans h1 h2
  rw [charListLt_irrefl] at this
  exact Bool.false_ne_true this

/-- Transitivity of the negated comparison (greater-or-equal). -/
theorem charListLt_false_trans {a b c : List Char}
    (h1 : charListLt b a = false) (h2 : charListLt c b = false) :
    charListLt c a = false := by
  cases hca : charListLt c a with
  | false => rfl
  | true =>
    exfalso
    cases hb : charListLt a b with
    | true =>
      have := charListLt_trans hca hb
      rw [h2] at this
      exact Bool.false_ne_true this
    | false =>
      have heq : a = b := charListLt_connex hb h1
      rw [heq] at hca
      rw [h2] at hca
      exact Bool.false_ne_true hca

/-- String equality from incomparability. -/
theorem str_eq_of_not_lt {a b : String}
    (h1 : strLt a b = false) (h2 : strLt b a = false) : a = b :=
  String.toList_inj.mp (charListLt_connex h1 h2)

/-- Characterisation of `keyLe`: the Python tuple order on `(port, proto, pname)`. -/
theorem keyLe_iff (a b : Int × String × String) :
    keyLe a b = true ↔
      a.1 < b.1 ∨ (a.1 = b.1 ∧ (strLt a.2.1 b.2.1 = true
        ∨ (a.2.1 = b.2.1 ∧ strLe a.2.2 b.2.2 = true))) := by
  unfold keyLe
  split_ifs with h1 h2 h3 h4
  · simp [h1]
  · exact iff_of_false (by simp) (by rintro (h | ⟨he, _⟩) <;> omega)
  · exact iff_of_true rfl (Or.inr ⟨by omega, Or.inl h3⟩)
  · refine iff_of_false (by simp) ?_
    rintro (h | ⟨he, h' | ⟨he2, h''⟩⟩)
    · omega
    · exact absurd h' (by simp [h3])
    · rw [he2] at h4
      rw [show strLt b.2.1 b.2.1 = false from charListLt_irrefl _] at h4
      exact Bool.false_ne_true h4
  · have he1 : a.1 = b.1 := by omega
    have he2 : a.2.1 = b.2.1 :=
      str_eq_of_not_lt (Bool.of_not_eq_true h3) (Bool.of_not_eq_true h4)
    constructor
    · intro h
      exact Or.inr ⟨he1, Or.inr ⟨he2, h⟩⟩
    · rintro (h | ⟨_, h' | ⟨_, h''⟩⟩)
      · omega
      · exact absurd h' (by simp [h3])
      · exact h''

theorem strLe_trans {a b c : String}
    (h1 : strLe a b = true) (h2 : strLe b c = true) : strLe a c = true := by
  unfold strLe at h1 h2 ⊢
  simp only [Bool.not_eq_true'] at h1 h2 ⊢
  exact charListLt_false_trans h1 h2

theorem keyLe_trans {a b c : Int × String × String}
    (h1 : keyLe a b = true) (h2 : keyLe b c = true) : keyLe a c = true := by
  rw [keyLe_iff] at h1 h2 ⊢
  rcases h1 with h1 | ⟨e1, s1⟩
  · rcases h2 with h2 | ⟨e2, _⟩
    · exact Or.inl (by omega)
    · exact Or.inl (by omega)
  · rcases h2 with h2 | ⟨e2, s2⟩
    · exact Or.inl (by omega)
    · refine Or.inr ⟨by omega, ?_⟩
      rcases s1 with s1 | ⟨f1, l1⟩
      · rcases s2 with s2 | ⟨f2, _⟩
        · exact Or.inl (charListLt_trans s1 s2)
        · exact Or.inl (f2 ▸ s1)
      · rcases s2 with s2 | ⟨f2, l2⟩
        · exact Or.inl (f1 ▸ s2)
        · exact Or.inr ⟨f1.trans f2, strLe_trans l1 l2⟩

theorem keyLe_total (a b : Int × String × String) :
    keyLe a b = true ∨ keyLe b a = true := by
  rw [keyLe_iff, keyLe_iff]
  rcases lt_trichotomy a.1 b.1 with h | h | h
  · exact Or.inl (Or.inl h)
  · by_cases hab : strLt a.2.1 b.2.1 = true
    · exact Or.inl (Or.inr ⟨h, Or.inl hab⟩)
    · by_cases hba : strLt b.2.1 a.2.1 = true
      · exact Or.inr (Or.inr ⟨h.symm, Or.inl hba⟩)
      · have hab' : strLt a.2.1 b.2.1 = false := Bool.of_not_eq_true hab
        have hba' : strLt b.2.1 a.2.1 = false := Bool.of_not_eq_true hba
        have he : a.2.1 = b.2.1 := str_eq_of_not_lt hab' hba'
        by_cases hll : charListLt b.2.2.data a.2.2.data = true
        · have hlr : charListLt a.2.2.data b.2.2.data = false := by
            cases hx : charListLt a.2.2.data b.2.2.data with
            | false => rfl
            | true => exact (charListLt_asymm hx hll).elim
          exact Or.inr (Or.inr ⟨h.symm, Or.inr ⟨he.symm, by simp [strLe, hlr]⟩⟩)
        · exact Or.inl (Or.inr ⟨h, Or.inr ⟨he,
            by simp [strLe, Bool.of_not_eq_true hll]⟩⟩)
  · exact Or.inr (Or.inl h)

instance : IsTrans Row RowLe :=
  ⟨fun _ _ _ h1 h2 => keyLe_trans h1 h2⟩

instance : IsTotal Row RowLe :=
  ⟨fun a b => keyLe_total (sort_key a) (sort_key b)⟩

/-- The filter loop is `List.filter` with the combined predicate: the
`continue` after the numeric branch makes the two appends exclusive. -/
theorem filterLoop_eq_filter (q : String) (rows : List Row) :
    filterLoop q rows
      = rows.filter (fun r => (pyIsDigit q && digitMatch q r) || generalMatch q r) := by
  induction rows with
  | nil => rfl
  | cons r rest ih =>
    simp only [filterLoop, List.filter]
    cases h1 : (pyIsDigit q && digitMatch q r) <;>
      cases h2 : generalMatch q r <;>
      simp [h1, h2, ih]

/-- Example row with parsable local port 80, protocol TCP. -/
def exRow80TCP : Row := ⟨"TCP", "10.0.0.1:80", "", "LISTEN", 41, "zeta"⟩

/-- Example row with parsable local port 22. -/
def exRow22 : Row := ⟨"TCP", "10.0.0.1:22", "", "LISTEN", 42, "sshd"⟩

/-- Example row whose local address has no parsable port (sort key port 0). -/
def exRowNoPort : Row := ⟨"UDP", "", "", "", -1, ""⟩

/-- Example row with parsable local port 80, protocol UDP. -/
def exRow80UDP : Row := ⟨"UDP", "10.0.0.1:80", "", "NONE", 43, "alpha"⟩

/-! ## Claims -/

/-- C2: every snapshot produced by `refresh` is sorted by the composite key
(local port ascending with 0 when unparsable, then protocol label, then
process name), and on records with local ports [80, 22, unparsable, 80] the
sort puts the unparsable (port 0) record first, then 22, then the two
port-80 records ordered by protocol label then process name. -/
theorem refresh_snapshot_sorted :
    (∀ (lookup : Int → NameLookup) (conns : List Conn),
      (refreshRows lookup conns).Pairwise (fun a b => rowLe a b = true))
    ∧ sortRows [exRow80TCP, exRow22, exRowNoPort, exRow80UDP]
        = [exRowNoPort, exRow22, exRow80TCP, exRow80UDP] := by
  constructor
  · intro lookup conns
    exact List.sorted_insertionSort RowLe (buildRows lookup conns)
  · decide

/-- C3: for a non-empty all-digit query, a record is in the filter output
iff it is in the snapshot and either the numeric branch matches (query is a
substring of the local or remote address, or equals `str(pid)`) or the
query falls through to the general case-insensitive substring match over
process name, protocol, addresses and status. -/
theorem apply_filter_numeric_query (rows : List Row) (text : String) (r : Row)
    (hq : pyIsDigit (queryOf text) = true) :
    r ∈ applyFilterRows text rows ↔
      r ∈ rows ∧ (digitMatch (queryOf text) r = true
        ∨ generalMatch (queryOf text) r = true) := by
  have hne : queryOf text ≠ "" := by
    intro h
    rw [h] at hq
    exact Bool.noConfusion hq
  rw [applyFilterRows]
  simp only [hne, if_false, filterLoop_eq_filter, List.mem_filter, hq,
    Bool.true_and, Bool.or_eq_true]

/-- Witness for C3: the query "7777" equals `str(pid)` of a record none of
whose other fields contain "7777", and the record is included. -/
theorem apply_filter_numeric_query_witness :
    (⟨"", "", "", "", 7777, ""⟩ : Row) ∈
        applyFilterRows "7777" [(⟨"", "", "", "", 7777, ""⟩ : Row)] ↔
      (⟨"", "", "", "", 7777, ""⟩ : Row) ∈ [(⟨"", "", "", "", 7777, ""⟩ : Row)]
        ∧ (digitMatch (queryOf "7777") (⟨"", "", "", "", 7777, ""⟩ : Row) = true
          ∨ generalMatch (queryOf "7777") (⟨"", "", "", "", 7777, ""⟩ : Row) = true) :=
  apply_filter_numeric_query [⟨"", "", "", "", 7777, ""⟩] "7777" ⟨"", "", "", "", 7777, ""⟩
    (by decide)

/-- C4: the empty query returns the full snapshot unchanged, and any query
produces an order-preserving subsequence of the snapshot in which each
record occurs at most as often as in the snapshot. -/
theorem apply_filter_preserves_order (rows : List Row) (text : String) :
    (queryOf text = "" → applyFilterRows text rows = rows)
    ∧ (applyFilterRows text rows).Sublist rows
    ∧ ∀ r : Row, (applyFilterRows text rows).count r ≤ rows.count r := by
  have hsub : (applyFilterRows text rows).Sublist rows := by
    rw [applyFilterRows]
    split
    · exact List.Sublist.refl rows
    · rw [filterLoop_eq_filter]
      exact List.filter_sublist rows
  refine ⟨fun h => by rw [applyFilterRows]; simp [h], hsub, fun r => hsub.count_le r⟩

/-- Witness for C4: on a concrete one-row snapshot, the empty query returns
it unchanged and the output is a sublist. -/
theorem apply_filter_preserves_order_witness :
    applyFilterRows "" [exRow22] = [exRow22]
    ∧ (applyFilterRows "" [exRow22]).Sublist [exRow22] :=
  ⟨(apply_filter_preserves_order [exRow22] "").1 (by decide),
   (apply_filter_preserves_order [exRow22] "").2.1⟩

/-- C5: a record built for a connection with no owner pid (sentinel -1,
i.e. `pid <= 0`) has the empty process name, and no name lookup is
attempted: the built row does not depend on the lookup at all. Lifted to
snapshots: every record of a built snapshot with `pid <= 0` has `pname = ""`. -/
theorem absent_pid_empty_process_name :
    (∀ (lookup lookup' : Int → NameLookup) (c : Conn), c.pid.getD (-1) ≤ 0 →
      (buildRow lookup c).pname = "" ∧ buildRow lookup c = buildRow lookup' c)
    ∧ ∀ (lookup : Int → NameLookup) (conns : List Conn) (r : Row),
        r ∈ refreshRows lookup conns → r.pid ≤ 0 → r.pname = "" := by
  constructor
  · intro lookup lookup' c h
    have hng : ¬ c.pid.getD (-1) > 0 := by omega
    simp [buildRow, hng]
  · intro lookup conns r hr hpid
    rw [refreshRows, sortRows] at hr
    rw [List.mem_insertionSort] at hr
    obtain ⟨c, _, rfl⟩ := List.mem_map.mp hr
    have hpid' : c.pid.getD (-1) ≤ 0 := hpid
    have hng : ¬ c.pid.getD (-1) > 0 := by omega
    simp [buildRow, hng]

/-- Witness for C5: a connection with no reported pid builds a row with an
empty process name, identically under two different resolvers. -/
theorem absent_pid_empty_process_name_witness :
    (buildRow (fun _ => .ok "x") ⟨1, none, none, none, none⟩).pname = ""
    ∧ buildRow (fun _ => .ok "x") ⟨1, none, none, none, none⟩
        = buildRow (fun _ => .err "y") ⟨1, none, none, none, none⟩ :=
  absent_pid_empty_process_name.1 (fun _ => .ok "x") (fun _ => .err "y")
    ⟨1, none, none, none, none⟩ (by decide)

/-- C6: when enumeration fails, the current refresh leaves the previously
stored snapshot unchanged, whatever it was; and the failure affects only
that cycle: a later successful refresh replaces the snapshot wholesale. -/
theorem refresh_enumeration_failure_atomic :
    (∀ (e : String) (lookup : Int → NameLookup) (st : Option (List Row)),
      refreshState (.error e) lookup st = st)
    ∧ ∀ (e : String) (lookup : Int → NameLookup) (st : Option (List Row))
        (conns : List Conn),
        refreshState (.ok conns) lookup (refreshState (.error e) lookup st)
          = some (refreshRows lookup conns) := by
  exact ⟨fun _ _ _ => rfl, fun _ _ _ _ => rfl⟩

/-- C8: for a positive pid, if the name lookup raises for any reason the
resolver returns the sentinel `"<unknown>"` and no error propagates; and
snapshot building always completes, producing one row per connection. -/
theorem safe_proc_name_never_fails :
    (∀ (lookup : Int → NameLookup) (pid : Int), 0 < pid →
      (lookup pid).failed = true → safe_proc_name lookup pid = "<unknown>")
    ∧ ∀ (lookup : Int → NameLookup) (conns : List Conn),
        (refreshRows lookup conns).length = conns.length := by
  constructor
  · intro lookup pid _ hfail
    unfold safe_proc_name
    cases h : lookup pid with
    | ok n => rw [h] at hfail; exact Bool.noConfusion hfail
    | err m => rfl
  · intro lookup conns
    rw [refreshRows, sortRows, List.length_insertionSort, buildRows,
      List.length_map]

/-- Witness for C8: a resolver that always raises yields the sentinel at
pid 5. -/
theorem safe_proc_name_never_fails_witness :
    safe_proc_name (fun _ => .err "process no longer exists") 5 = "<unknown>" :=
  safe_proc_name_never_fails.1 (fun _ => .err "process no longer exists") 5
    (by decide) rfl

/-- C9: for any `pid <= 0`, the termination command immediately reports
"no PID", for every platform and whatever the process/OS would have done:
no handle is resolved and no signal is sent. -/
theorem terminate_rejects_nonpositive_pid (platform : Platform) (pid : Int)
    (phase : KillPhase) (tk : TaskkillResult) (sg : SigtermResult)
    (h : pid ≤ 0) :
    terminate platform pid phase tk sg = (false, "no PID") := by
  rw [terminate, if_pos (Or.inr h)]

/-- Witness for C9: pid -1 is rejected even in a scenario where the process
would have exited gracefully. -/
theorem terminate_rejects_nonpositive_pid_witness :
    terminate .posix (-1) .gracefulExit .ok .ok = (false, "no PID") :=
  terminate_rejects_nonpositive_pid .posix (-1) .gracefulExit .ok .ok (by decide)

/-- C10: invoking the filter before any snapshot has ever been built
(no `_all_rows` attribute) is a total no-op for every query text. -/
theorem apply_filter_no_snapshot_noop (text : String) (st : UIState)
    (h : st.all_rows = none) : apply_filter text st = st := by
  rw [apply_filter, h]

/-- Witness for C10: the filter leaves the initial state untouched. -/
theorem apply_filter_no_snapshot_noop_witness :
    apply_filter "8080" ⟨none, []⟩ = ⟨none, []⟩ :=
  apply_filter_no_snapshot_noop "8080" ⟨none, []⟩ rfl

/-- Counterexample to C1: when the process has not exited after both bounded
waits (the second `wait(3)` raises `TimeoutExpired`), the exception reaches
the generic fallback handler, and on a non-Windows platform where the raw
`os.kill(pid, SIGTERM)` succeeds the result is `(True, "SIGTERM sent")` — a
success, contradicting "the result is a failure, never a success". (On
Windows the same path can return the success `(True, "taskkill")`.) -/
theorem kill_after_double_timeout_can_succeed :
    try_kill_pid .posix (.stuckAfterKill "timeout after 3 seconds") .ok .ok
        = (true, "SIGTERM sent")
    ∧ (try_kill_pid .posix (.stuckAfterKill "timeout after 3 seconds") .ok .ok).1 = true
    ∧ try_kill_pid .windows (.stuckAfterKill "timeout after 3 seconds") .ok .ok
        = (true, "taskkill") := by
  decide

/-- C1 as amended: `try_kill_pid` follows the graceful-then-forceful state
machine — not-found gives `(False, "process not found")`, exit within the
first wait gives `(True, "terminated")`, exit within the second wait gives
`(True, "killed")` — but when the process has still not exited after both
bounded waits the `TimeoutExpired` is handled by the generic fallback path:
on Windows, `taskkill /F` (success "taskkill" if it exits zero, else a
failure naming both errors); elsewhere a raw SIGTERM (success "SIGTERM sent"
if sending succeeds, failure "permission denied: …" on `PermissionError`,
else failure with the error text). The timeout-exhausted path can therefore
still report success. -/
theorem try_kill_pid_state_machine :
    ∀ (platform : Platform) (tk : TaskkillResult) (sg : SigtermResult) (msg : String),
      try_kill_pid platform .noSuchProcess tk sg = (false, "process not found")
      ∧ try_kill_pid platform .gracefulExit tk sg = (true, "terminated")
      ∧ try_kill_pid platform .forcefulExit tk sg = (true, "killed")
      ∧ try_kill_pid .windows (.stuckAfterKill msg) .ok sg = (true, "taskkill")
      ∧ (∀ e2, try_kill_pid .windows (.stuckAfterKill msg) (.fail e2) sg
          = (false, msg ++ "; taskkill failed: " ++ e2))
      ∧ try_kill_pid .posix (.stuckAfterKill msg) tk .ok = (true, "SIGTERM sent")
      ∧ (∀ pe, try_kill_pid .posix (.stuckAfterKill msg) tk (.permErr pe)
          = (false, "permission denied: " ++ pe))
      ∧ (∀ e3, try_kill_pid .posix (.stuckAfterKill msg) tk (.err e3)
          = (false, e3)) :=
  fun _ _ _ _ =>
    ⟨rfl, rfl, rfl, rfl, fun _ => rfl, rfl, fun _ => rfl, fun _ => rfl⟩

/-- Counterexample to C7: a termination that fails because of insufficient
permission (psutil raises `AccessDenied`) on Windows, where the `taskkill`
fallback then also fails, returns a failure whose reason is
`"<original error>; taskkill failed: <detail>"` — it does not carry the
reason "permission denied", and it is not a platform-fallback success. -/
theorem permission_failure_reason_counterexample :
    try_kill_pid .windows (.raisedExc ⟨.accessDenied, "psutil.AccessDenied (pid=42)"⟩)
        (.fail "exit status 1") .ok
      = (false, "psutil.AccessDenied (pid=42); taskkill failed: exit status 1")
    ∧ pyIn "permission denied"
        "psutil.AccessDenied (pid=42); taskkill failed: exit status 1" = false := by
  decide

/-- C7 as amended: a permission failure (an `AccessDenied` exception from a
psutil step) is never a silent no-op — the outcome is always one of: on
non-Windows, `(False, "permission denied: <detail>")` when the raw SIGTERM
fallback hits a `PermissionError`, `(False, <error text>)` when it hits
another error, or `(True, "SIGTERM sent")` when it succeeds; on Windows,
the `taskkill` fallback gives `(True, "taskkill")` on success and
`(False, "<original error>; taskkill failed: <detail>")` on failure. Only
the non-Windows `PermissionError` path carries the literal reason
"permission denied". -/
theorem permission_failure_outcomes (e : Exc) (_hk : e.kind = .accessDenied) :
    (∀ pe tk, try_kill_pid .posix (.raisedExc e) tk (.permErr pe)
        = (false, "permission denied: " ++ pe))
    ∧ (∀ e3 tk, try_kill_pid .posix (.raisedExc e) tk (.err e3) = (false, e3))
    ∧ (∀ tk, try_kill_pid .posix (.raisedExc e) tk .ok = (true, "SIGTERM sent"))
    ∧ (∀ sg, try_kill_pid .windows (.raisedExc e) .ok sg = (true, "taskkill"))
    ∧ (∀ e2 sg, try_kill_pid .windows (.raisedExc e) (.fail e2) sg
        = (false, e.msg ++ "; taskkill failed: " ++ e2)) :=
  ⟨fun _ _ => rfl, fun _ _ => rfl, fun _ => rfl, fun _ => rfl, fun _ _ => rfl⟩

/-- Witness for C7 (amended): a concrete `AccessDenied` failure on a
non-Windows platform whose SIGTERM fallback hits a `PermissionError`
surfaces as a "permission denied" failure with the detail attached. -/
theorem permission_failure_outcomes_witness :
    try_kill_pid .posix (.raisedExc ⟨.accessDenied, "denied"⟩) .ok
        (.permErr "Operation not permitted")
      = (false, "permission denied: Operation not permitted") :=
  (permission_failure_outcomes ⟨.accessDenied, "denied"⟩ rfl).1
    "Operation not permitted" .ok

end PortInspector
